import Mathlib

set_option maxRecDepth 40000

/-!
# Voice Recorder — verification of the core pipeline spec

Shallow embedding of the voice-recorder repository's core pipeline:
language detection and bilingual prompt routing, the analysis retry loop,
the capture-session state machine, the relational repository layer
(schema from `src/docs/REFACTOR_PLAN.md`), the web wire types
(`src/web/src/services/api.ts`, `src/web/src/types/index.ts`) and the
`voiceSessionToNote` transformation (`src/web/src/utils/dataTransform.ts`).

The backend Rust implementation files are not part of the repository
snapshot; where a definition has no source file, its doc comment starts
with `Modelled from the spec:` and names what is missing.
-/

namespace VoiceRecorder

/-! ## Language detection and prompt selection

`src/unnamed/part_001` documents `detect_language`, `get_english_prompt`
and `get_chinese_prompt` (implemented in the absent `src/ollama/mod.rs`):
the Chinese prompt is used when the Chinese-character share of the
transcript exceeds 30%, the English prompt otherwise.
-/

inductive Language where
  | english
  | chinese
deriving DecidableEq, Repr

/-- Modelled from the spec: the definition of "CJK character" used by the
absent `detect_language` in `src/ollama/mod.rs`. The spec only says "code
points belonging to CJK ideograph ranges" and explicitly leaves the exact
ranges open; we take the CJK Unified Ideographs block, Extension A, the
compatibility ideographs, and Extension B. -/
def isCjkChar (c : Char) : Bool :=
  (0x4E00 ≤ c.toNat && c.toNat ≤ 0x9FFF) ||
  (0x3400 ≤ c.toNat && c.toNat ≤ 0x4DBF) ||
  (0xF900 ≤ c.toNat && c.toNat ≤ 0xFAFF) ||
  (0x20000 ≤ c.toNat && c.toNat ≤ 0x2A6DF)

/-- The non-whitespace characters of a transcript, the denominator of the
CJK-share computation. -/
def nonWsChars (t : String) : List Char :=
  t.toList.filter (fun c => !c.isWhitespace)

/-- Count of CJK code points among the non-whitespace characters. -/
def cjkCount (t : String) : Nat :=
  ((nonWsChars t).filter isCjkChar).length

/-- Count of all non-whitespace characters. -/
def nonWsCount (t : String) : Nat :=
  (nonWsChars t).length

/-- Modelled from the spec: `detect_language` from the absent
`src/ollama/mod.rs`, documented in `src/unnamed/part_001`: classify as
Chinese when the CJK share of the non-whitespace characters exceeds 30%
("如果中文字符占比超过 30%"), else English. The fraction comparison
`cjk / total > 30 / 100` is taken exactly, via cross-multiplication. -/
def detect_language (t : String) : Language :=
  if 10 * cjkCount t > 3 * nonWsCount t then Language.chinese else Language.english

/-- The English analysis prompt, verbatim from `src/unnamed/part_001`
("原始英文 Prompt (备份)"), the text of `get_english_prompt`. -/
def get_english_prompt : String :=
  "You are an AI assistant specialized in analyzing meeting transcripts and generating structured insights. Your goal is to process the provided transcript and extract the following information in a well-formatted JSON object:\n\n1.  **Title**: A concise, descriptive title for the entire note, summarizing its main topic.\n2.  **Summary**: A concise overview of the main points and outcomes discussed.\n3.  **Ideas**: A list of potential ideas or suggestions that arose from the discussion.\n4.  **Tasks**: A list of actionable tasks identified, including a title, optional description, and priority (Low, Medium, High, Urgent).\n5.  **Structured Notes**: A list of key discussion points or decisions, formatted as structured notes with a title, content, relevant tags (as a list of strings), and a note type (Meeting, Brainstorm, Decision, Action, Reference).\n\nEnsure the JSON output is valid and strictly follows the specified structure. Do not include any other text outside the JSON object.\n\nIf the provided transcript is empty or contains only whitespace, return an empty JSON object `\x7b\x7d`."

/-- The Chinese analysis prompt, verbatim from `src/unnamed/part_001`
("新增中文 Prompt"), the text of `get_chinese_prompt`. -/
def get_chinese_prompt : String :=
  "你是一个专业的文本分析助手，专门处理各种类型的文本内容并生成结构化分析。请客观地分析提供的文本内容，并提取以下信息到一个格式良好的JSON对象中：\n\n1.  **title（标题）**: 为文本内容提供一个简洁、描述性的标题，总结其主要话题。\n2.  **summary（摘要）**: 对文本的主要观点和内容进行客观、简洁的概述。\n3.  **ideas（观点）**: 文本中提到的主要观点、论述或见解列表。\n4.  **tasks（要点）**: 文本中提及的重要事项或关键信息，包括标题、可选描述和重要程度（Low、Medium、High、Urgent）。\n5.  **structured_notes（结构化笔记）**: 文本的关键信息点，格式化为结构化笔记，包含标题、内容、相关标签（字符串列表）和类型（Meeting、Brainstorm、Decision、Action、Reference）。\n\n请确保：\n- JSON输出格式正确且严格遵循指定结构\n- 保持客观中立的分析态度\n- 不要在JSON对象之外包含任何其他文本\n- 如果文本为空或仅包含空白字符，返回空的JSON对象 `\x7b\x7d`\n\n无论文本内容如何，都请进行客观的结构化分析。"

/-- Prompt selection by detected language (documented in
`src/unnamed/part_001`: Chinese share over 30% selects the Chinese
prompt, otherwise the English prompt). -/
def get_prompt_for_language : Language → String
  | Language.english => get_english_prompt
  | Language.chinese => get_chinese_prompt

/-- `pat` occurs at the start of `s` (character-list level). -/
def startsWithChars : List Char → List Char → Bool
  | [], _ => true
  | _ :: _, [] => false
  | p :: ps, c :: cs => p == c && startsWithChars ps cs

/-- `pat` occurs somewhere inside `s` (character-list level). -/
def hasInfixChars (pat : List Char) : List Char → Bool
  | [] => startsWithChars pat []
  | c :: cs => startsWithChars pat (c :: cs) || hasInfixChars pat cs

/-- Substring occurrence on strings. -/
def strContains (s pat : String) : Bool :=
  hasInfixChars pat.toList s.toList

/-- The English prompt's empty-transcript instruction: the provider itself
is told what to emit when the transcript is empty or whitespace-only. -/
def englishEmptyCaseInstruction : String :=
  "If the provided transcript is empty or contains only whitespace, return an empty JSON object"

/-- The Chinese prompt's empty-transcript instruction. -/
def chineseEmptyCaseInstruction : String :=
  "如果文本为空或仅包含空白字符，返回空的JSON对象"

/-- A prompt template delegates the empty-transcript case to the provider
when it carries an instruction telling the provider what to return for
empty or whitespace-only input. -/
def promptDelegatesEmptyCase (p : String) : Bool :=
  strContains p englishEmptyCaseInstruction || strContains p chineseEmptyCaseInstruction

/-! ## Analysis retry loop

`src/docs/REFACTOR_PLAN.md` (lines 135–157) gives the retry loop of
`OllamaService::analyze_text`: starting from `attempts = 0` with
`max_attempts = 3`, each iteration sends one request; on success the
result is returned at once; on failure with `attempts < max_attempts - 1`
the counter is incremented and the loop sleeps `2^attempts` seconds
before the next request; otherwise the last error is returned.

The embedding indexes provider calls by call number (`send k` is the
outcome of the `k`-th request) and records the executed sleeps. The
recursion is on `gas = max_attempts - attempts`; `gas = 0` corresponds to
the loop guard failing, which in the source falls through to
`unreachable!()`, embedded as `none`.
-/

/-- One run of the `analyze_text` retry loop: returns
`(result?, number of requests sent, sleep durations in seconds)`;
`result? = none` is the `unreachable!()` fall-through. -/
def analyzeLoop {E R : Type} (send : Nat → Except E R) (maxAttempts : Nat) :
    Nat → Nat → List Nat → Option (Except E R) × Nat × List Nat
  | 0, calls, sleeps => (none, calls, sleeps)
  | 1, callIdx, sleeps =>
    (match send callIdx with
     | Except.ok r => (some (Except.ok r), callIdx + 1, sleeps)
     | Except.error e => (some (Except.error e), callIdx + 1, sleeps))
  | (g + 2), callIdx, sleeps =>
    (match send callIdx with
     | Except.ok r => (some (Except.ok r), callIdx + 1, sleeps)
     | Except.error _ =>
       analyzeLoop send maxAttempts (g + 1) (callIdx + 1)
         (sleeps ++ [2 ^ (maxAttempts - (g + 1))]))

/-- `OllamaService::analyze_text` with the source's `max_attempts = 3`
(also the configured `retry_attempts = 3` in `config.toml`). -/
def analyze_text {E R : Type} (send : Nat → Except E R) :
    Option (Except E R) × Nat × List Nat :=
  analyzeLoop send 3 3 0 []

/-! ## Theorems: language detection (C4) and prompt routing of the empty case (C3) -/

/-- C4: language detection is a pure, deterministic function of the
transcript text; it classifies as Chinese exactly when the CJK share of
the non-whitespace characters exceeds 30% (`cjk / total > 30 / 100`,
compared exactly), as English otherwise; a share of exactly 0.30 selects
the English prompt template. -/
theorem detect_language_threshold (t : String) :
    (detect_language t = Language.chinese ↔ 100 * cjkCount t > 30 * nonWsCount t)
    ∧ (detect_language t = Language.english ↔ 100 * cjkCount t ≤ 30 * nonWsCount t)
    ∧ (10 * cjkCount t = 3 * nonWsCount t →
        get_prompt_for_language (detect_language t) = get_english_prompt) := by
  by_cases h : 10 * cjkCount t > 3 * nonWsCount t
  · refine ⟨?_, ?_, ?_⟩ <;> simp [detect_language, h, get_prompt_for_language] <;> omega
  · refine ⟨?_, ?_, ?_⟩ <;> simp [detect_language, h, get_prompt_for_language] <;> omega

/-- Witness for C4 at the 30% boundary: `"中中中abcdefg"` has 3 CJK
characters among 10 non-whitespace characters (exactly 30%) and selects
the English prompt. -/
theorem detect_language_threshold_witness :
    10 * cjkCount "中中中abcdefg" = 3 * nonWsCount "中中中abcdefg"
    ∧ get_prompt_for_language (detect_language "中中中abcdefg") = get_english_prompt :=
  ⟨by decide, (detect_language_threshold "中中中abcdefg").2.2 (by decide)⟩

/-- C3 counterexample: the claim asserts the empty-transcript case is
short-circuited before any provider invocation and *not* delegated to the
provider via the prompt — i.e. `promptDelegatesEmptyCase` would be
`false` on the templates; but both prompt templates of
`src/unnamed/part_001` carry an explicit instruction telling the provider
what to return for empty or whitespace-only input, so the empty case *is*
delegated to the provider via the prompt. -/
theorem analysis_empty_case_not_short_circuited :
    promptDelegatesEmptyCase get_english_prompt = true
    ∧ promptDelegatesEmptyCase get_chinese_prompt = true := by
  decide

/-- C3 amended: the empty or whitespace-only transcript case is handled
by prompt instruction, not by a short-circuit: the English template
instructs the provider "If the provided transcript is empty or contains
only whitespace, return an empty JSON object", and the Chinese template
instructs "如果文本为空或仅包含空白字符，返回空的JSON对象". -/
theorem prompts_instruct_provider_on_empty :
    strContains get_english_prompt englishEmptyCaseInstruction = true
    ∧ strContains get_chinese_prompt chineseEmptyCaseInstruction = true := by
  decide

/-! ## Theorems: analysis retry policy (C2) -/

/-- C2: the `analyze_text` retry loop makes at most 3 provider attempts
total and never reaches the `unreachable!()` fall-through; when all three
attempts fail it returns the last underlying cause after sleeping 2 and
then 4 seconds (before the 2nd and 3rd attempts) with no further attempts
or sleeps; a success on attempt 2 returns immediately after the single
2-second sleep, with no further attempts or sleeps. -/
theorem analyze_text_retry_policy {E R : Type} (send : Nat → Except E R) :
    (analyze_text send).2.1 ≤ 3
    ∧ (analyze_text send).1 ≠ none
    ∧ (∀ e0 e1 e2, send 0 = Except.error e0 → send 1 = Except.error e1 →
        send 2 = Except.error e2 →
        analyze_text send = (some (Except.error e2), 3, [2, 4]))
    ∧ (∀ e0 r, send 0 = Except.error e0 → send 1 = Except.ok r →
        analyze_text send = (some (Except.ok r), 2, [2])) := by
  refine ⟨?_, ?_, ?_, ?_⟩
  · cases h0 : send 0 <;> cases h1 : send 1 <;> cases h2 : send 2 <;>
      simp [analyze_text, analyzeLoop, h0, h1, h2]
  · cases h0 : send 0 <;> cases h1 : send 1 <;> cases h2 : send 2 <;>
      simp [analyze_text, analyzeLoop, h0, h1, h2]
  · intro e0 e1 e2 h0 h1 h2
    simp [analyze_text, analyzeLoop, h0, h1, h2]
  · intro e0 r h0 h1
    simp [analyze_text, analyzeLoop, h0, h1]

/-- Witness for C2: a provider failing every attempt yields the last
error after exactly 3 calls and sleeps `[2, 4]`; a provider succeeding on
its second call stops after 2 calls and the single sleep `[2]`. -/
theorem analyze_text_retry_policy_witness :
    analyze_text (fun k => (Except.error k : Except Nat Nat))
      = (some (Except.error 2), 3, [2, 4])
    ∧ analyze_text (fun k => if k = 1 then Except.ok 7 else (Except.error k : Except Nat Nat))
      = (some (Except.ok 7), 2, [2]) :=
  ⟨(analyze_text_retry_policy (fun k => (Except.error k : Except Nat Nat))).2.2.1
      0 1 2 rfl rfl rfl,
   (analyze_text_retry_policy
      (fun k => if k = 1 then Except.ok 7 else (Except.error k : Except Nat Nat))).2.2.2
      0 7 rfl rfl⟩

/-! ## Audio capture state machine

The backend capture controller (`src/services/audio/recorder.rs` in the
plan) is absent from the snapshot; the front end only posts
`/record/start` and `/record/stop` (`src/web/src/services/api.ts`,
`startRecordingHandler` in the Recorder component). The session state
machine is therefore modelled from the spec.
-/

/-- Capture sub-states of a session (`Idle → Recording → Stopping →
Stopped`); a session row exists only once recording started. -/
inductive SessionPhase where
  | recording
  | stopping
  | stopped
deriving DecidableEq, Repr

/-- Capture-layer errors. -/
inductive CaptureError where
  | alreadyRecording
deriving DecidableEq, Repr

/-- Modelled from the spec: the capture controller's view of the system —
the sessions it created, each with its capture phase. The backend
implementation is absent. -/
structure CaptureState where
  sessions : List (Nat × SessionPhase)
deriving DecidableEq, Repr

/-- Number of sessions currently in `Recording` phase. -/
def recordingCount (st : CaptureState) : Nat :=
  st.sessions.countP (fun p => p.2 == SessionPhase.recording)

/-- Modelled from the spec: `startSession` — rejected with a
`CaptureError` when another session is already `Recording` (single active
recorder invariant), otherwise creates a new session in `Recording` phase
and returns its id. -/
def startSession (st : CaptureState) (newId : Nat) :
    Except CaptureError (CaptureState × Nat) :=
  if st.sessions.any (fun p => p.2 == SessionPhase.recording) then
    Except.error CaptureError.alreadyRecording
  else
    Except.ok ({ sessions := st.sessions ++ [(newId, SessionPhase.recording)] }, newId)

/-- Modelled from the spec: `stopSession` — the session's `Recording`
phase moves towards `Stopped`; other sessions are untouched. -/
def stopSession (st : CaptureState) (id : Nat) : CaptureState :=
  { sessions := st.sessions.map (fun p =>
      if p.1 == id && p.2 == SessionPhase.recording then (p.1, SessionPhase.stopped) else p) }

/-- Modelled from the spec: cancelling a recording returns to `Idle`,
discarding partial audio — the session row is removed. -/
def cancelSession (st : CaptureState) (id : Nat) : CaptureState :=
  { sessions := st.sessions.filter (fun p =>
      !(p.1 == id && p.2 == SessionPhase.recording)) }

/-- Operations of the capture lifecycle exposed to the API layer. -/
inductive CaptureOp where
  | start (newId : Nat)
  | stop (id : Nat)
  | cancel (id : Nat)
deriving DecidableEq, Repr

/-- One step of the capture lifecycle; a rejected `start` leaves the
state unchanged. -/
def applyCaptureOp (st : CaptureState) : CaptureOp → CaptureState
  | CaptureOp.start n =>
    (match startSession st n with
     | Except.ok (st', _) => st'
     | Except.error _ => st)
  | CaptureOp.stop id => stopSession st id
  | CaptureOp.cancel id => cancelSession st id

/-- The capture state reached from the initial (empty) state by a
sequence of operations. -/
def runCaptureOps (ops : List CaptureOp) : CaptureState :=
  ops.foldl applyCaptureOp { sessions := [] }

/-- Every single capture step preserves the bound of at most one
`Recording` session. -/
theorem applyCaptureOp_recordingCount_le (st : CaptureState) (op : CaptureOp)
    (h : recordingCount st ≤ 1) :
    recordingCount (applyCaptureOp st op) ≤ 1 := by
  cases op with
  | start n =>
    by_cases hrec : st.sessions.any (fun p => p.2 == SessionPhase.recording) = true
    · simpa [applyCaptureOp, startSession, hrec] using h
    · have hzero : recordingCount st = 0 := by
        simp only [recordingCount, List.countP_eq_zero]
        intro a ha
        rw [List.any_eq_true] at hrec
        exact fun hpa => hrec ⟨a, ha, hpa⟩
      have hone : recordingCount (applyCaptureOp st (CaptureOp.start n))
          = recordingCount st + 1 := by
        simp [applyCaptureOp, startSession, hrec, recordingCount, List.countP_append]
      omega
  | stop id =>
    have hle : recordingCount (stopSession st id) ≤ recordingCount st := by
      simp only [recordingCount, stopSession, List.countP_map]
      apply List.countP_mono_left
      intro p _ hp
      by_cases hc : (p.1 == id && p.2 == SessionPhase.recording) = true <;>
        simp [hc, Function.comp] at hp ⊢ <;> simp_all
    exact le_trans hle h
  | cancel id =>
    have hle : recordingCount (cancelSession st id) ≤ recordingCount st :=
      List.Sublist.countP_le _ (List.filter_sublist _)
    exact le_trans hle h

/-! ## Theorems: single active recording invariant (C5) -/

/-- C5: in every state reachable from the initial state at most one
session is in `Recording` phase; a `startSession` issued while some
session is already `Recording` fails with a `CaptureError`, creates no
new session, and leaves the state (in particular the already-recording
session) unchanged. -/
theorem single_recording_invariant :
    (∀ ops : List CaptureOp, recordingCount (runCaptureOps ops) ≤ 1)
    ∧ (∀ (st : CaptureState) (n : Nat), 0 < recordingCount st →
        startSession st n = Except.error CaptureError.alreadyRecording
        ∧ applyCaptureOp st (CaptureOp.start n) = st) := by
  constructor
  · have key : ∀ (ops : List CaptureOp) (st : CaptureState), recordingCount st ≤ 1 →
        recordingCount (ops.foldl applyCaptureOp st) ≤ 1 := by
      intro ops
      induction ops with
      | nil => intro st h; simpa using h
      | cons op rest ih =>
        intro st h
        exact ih _ (applyCaptureOp_recordingCount_le st op h)
    intro ops
    exact key ops _ (by simp [recordingCount])
  · intro st n h
    have hany : st.sessions.any (fun p => p.2 == SessionPhase.recording) = true := by
      rw [List.any_eq_true]
      simp only [recordingCount] at h
      obtain ⟨a, ha, hpa⟩ := List.countP_pos_iff.mp h
      exact ⟨a, ha, hpa⟩
    exact ⟨by simp [startSession, hany], by simp [applyCaptureOp, startSession, hany]⟩

/-- Witness for C5: two consecutive `start` requests from the empty state
leave at most one `Recording` session, and a `start` against a state with
one `Recording` session fails with `CaptureError` and changes nothing. -/
theorem single_recording_invariant_witness :
    recordingCount (runCaptureOps [CaptureOp.start 1, CaptureOp.start 2]) ≤ 1
    ∧ startSession { sessions := [(1, SessionPhase.recording)] } 2
        = Except.error CaptureError.alreadyRecording
    ∧ applyCaptureOp { sessions := [(1, SessionPhase.recording)] } (CaptureOp.start 2)
        = { sessions := [(1, SessionPhase.recording)] } :=
  ⟨single_recording_invariant.1 [CaptureOp.start 1, CaptureOp.start 2],
   (single_recording_invariant.2 { sessions := [(1, SessionPhase.recording)] } 2
      (by decide)).1,
   (single_recording_invariant.2 { sessions := [(1, SessionPhase.recording)] } 2
      (by decide)).2⟩

/-! ## Repository layer

Relational model following the schema of `src/docs/REFACTOR_PLAN.md`
(§3.1): tables `sessions`, `audio_files`, `transcripts`,
`analysis_results`, `ideas`, `tasks`, `structured_notes`, with
`ON DELETE CASCADE` foreign keys from every dependent to its owner.
Tables are modelled as lists of rows in insertion order (SQL append);
UUIDs and timestamps are modelled as `Nat`.

The Rust repository implementation (`src/repository/*.rs` in the plan)
is absent from the snapshot; `saveAnalysis`, `find_analysis_by_session_id`
and `deleteSession` below are modelled from the spec over this schema.
-/

inductive SessionStatus where
  | active
  | archived
  | deleted
deriving DecidableEq, Repr

inductive TaskPriority where
  | low
  | medium
  | high
  | urgent
deriving DecidableEq, Repr

inductive TaskStatus where
  | pending
  | in_progress
  | completed
  | cancelled
deriving DecidableEq, Repr

inductive NoteType where
  | meeting
  | brainstorm
  | decision
  | action
  | reference
deriving DecidableEq, Repr

/-- A row of the `sessions` table. -/
structure SessionRow where
  id : Nat
  title : String
  created_at : Nat
  updated_at : Nat
  duration_ms : Int
  status : SessionStatus
  metadata : Option String
deriving DecidableEq, Repr

/-- A row of the `audio_files` table. -/
structure AudioFileRow where
  id : Nat
  session_id : Nat
  file_path : String
  file_size : Int
  format : String
  sample_rate : Option Int
  channels : Option Int
  created_at : Nat
  checksum : Option String
deriving DecidableEq, Repr

/-- A row of the `transcripts` table. -/
structure TranscriptRow where
  id : Nat
  session_id : Nat
  content : String
  language : Option String
  confidence_score : Option Int
  provider : String
  created_at : Nat
  processing_time_ms : Option Int
deriving DecidableEq, Repr

/-- A row of the `analysis_results` table. -/
structure AnalysisRow where
  id : Nat
  session_id : Nat
  title : Option String
  summary : Option String
  provider : String
  model_version : Option String
  created_at : Nat
  processing_time_ms : Option Int
deriving DecidableEq, Repr

/-- A row of the `ideas` table. -/
structure IdeaRow where
  id : Nat
  analysis_id : Nat
  content : String
  category : Option String
  priority : Int
  created_at : Nat
deriving DecidableEq, Repr

/-- A row of the `tasks` table. -/
structure TaskRow where
  id : Nat
  analysis_id : Nat
  title : String
  description : Option String
  priority : TaskPriority
  status : TaskStatus
  due_date : Option Nat
  created_at : Nat
  updated_at : Nat
deriving DecidableEq, Repr

/-- A row of the `structured_notes` table (`tags TEXT[]` is an ordered
PostgreSQL array). -/
structure NoteRow where
  id : Nat
  analysis_id : Nat
  title : String
  content : String
  note_type : NoteType
  tags : List String
  created_at : Nat
  updated_at : Nat
deriving DecidableEq, Repr

/-- The relational store: one list of rows per table of the schema. -/
structure Store where
  sessions : List SessionRow
  audio_files : List AudioFileRow
  transcripts : List TranscriptRow
  analysis_results : List AnalysisRow
  ideas : List IdeaRow
  tasks : List TaskRow
  structured_notes : List NoteRow
deriving DecidableEq, Repr

/-- The in-memory `AnalysisResult` of `src/docs/REFACTOR_PLAN.md`
(`models/analysis.rs`): the `analysis_results` columns plus the owned
`ideas`, `tasks` and `structured_notes` collections. -/
structure AnalysisResult where
  id : Nat
  session_id : Nat
  title : Option String
  summary : Option String
  provider : String
  model_version : Option String
  created_at : Nat
  processing_time_ms : Option Int
  ideas : List IdeaRow
  tasks : List TaskRow
  structured_notes : List NoteRow
deriving DecidableEq, Repr

/-- The `analysis_results` row of an in-memory `AnalysisResult`, scoped
to a session. -/
def AnalysisResult.toRow (r : AnalysisResult) (sid : Nat) : AnalysisRow :=
  { id := r.id, session_id := sid, title := r.title, summary := r.summary,
    provider := r.provider, model_version := r.model_version,
    created_at := r.created_at, processing_time_ms := r.processing_time_ms }

/-- Reassemble an in-memory `AnalysisResult` from an `analysis_results`
row and its child rows (the `#[sqlx(skip)]` collections, fetched by
`analysis_id`, in stored order). -/
def assembleAnalysis (st : Store) (a : AnalysisRow) : AnalysisResult :=
  { id := a.id, session_id := a.session_id, title := a.title,
    summary := a.summary, provider := a.provider,
    model_version := a.model_version, created_at := a.created_at,
    processing_time_ms := a.processing_time_ms,
    ideas := st.ideas.filter (fun i => i.analysis_id == a.id),
    tasks := st.tasks.filter (fun t => t.analysis_id == a.id),
    structured_notes := st.structured_notes.filter (fun n => n.analysis_id == a.id) }

/-- Modelled from the spec: `findSession(id).analysis` — the
`AnalysisResult` of a session, reassembled from the store (the Rust
`AnalysisRepository::find_by_session_id` is absent). -/
def find_analysis_by_session_id (st : Store) (sid : Nat) : Option AnalysisResult :=
  (st.analysis_results.find? (fun a => a.session_id == sid)).map (assembleAnalysis st)

/-- The constituent writes of a `saveAnalysis` call; a failure oracle
over these steps injects storage failures mid-transaction. -/
inductive WriteStep where
  | analysisRow
  | ideaRow (idx : Nat)
  | taskRow (idx : Nat)
  | noteRow (idx : Nat)
deriving DecidableEq, Repr

/-- Insert the idea rows one by one; `none` when the injected failure
hits one of these writes. -/
def insertIdeaRows (fail : WriteStep → Bool) :
    Store → List IdeaRow → Nat → Option Store
  | st, [], _ => some st
  | st, i :: rest, idx =>
    if fail (WriteStep.ideaRow idx) then none
    else insertIdeaRows fail { st with ideas := st.ideas ++ [i] } rest (idx + 1)

/-- Insert the task rows one by one. -/
def insertTaskRows (fail : WriteStep → Bool) :
    Store → List TaskRow → Nat → Option Store
  | st, [], _ => some st
  | st, t :: rest, idx =>
    if fail (WriteStep.taskRow idx) then none
    else insertTaskRows fail { st with tasks := st.tasks ++ [t] } rest (idx + 1)

/-- Insert the structured-note rows one by one. -/
def insertNoteRows (fail : WriteStep → Bool) :
    Store → List NoteRow → Nat → Option Store
  | st, [], _ => some st
  | st, n :: rest, idx =>
    if fail (WriteStep.noteRow idx) then none
    else insertNoteRows fail { st with structured_notes := st.structured_notes ++ [n] } rest (idx + 1)

/-- Modelled from the spec: a newer `saveAnalysis` fully supersedes the
prior `AnalysisResult` of the session — the old analysis row and its
dependent `ideas`/`tasks`/`structured_notes` rows are removed (within
the same transaction). -/
def purgeAnalysisOfSession (st : Store) (sid : Nat) : Store :=
  let aids := (st.analysis_results.filter (fun a => a.session_id == sid)).map
    (fun a => a.id)
  { st with
    analysis_results := st.analysis_results.filter (fun a => a.session_id != sid),
    ideas := st.ideas.filter (fun i => !(aids.contains i.analysis_id)),
    tasks := st.tasks.filter (fun t => !(aids.contains t.analysis_id)),
    structured_notes := st.structured_notes.filter (fun n => !(aids.contains n.analysis_id)) }

/-- The write sequence of the `saveAnalysis` transaction body: the
analysis row, then every idea row, then every task row, then every
structured-note row; `none` as soon as the injected failure hits. -/
def runSaveWrites (fail : WriteStep → Bool) (st : Store) (sid : Nat)
    (r : AnalysisResult) : Option Store :=
  if fail WriteStep.analysisRow then none
  else
    match insertIdeaRows fail
        { st with analysis_results := st.analysis_results ++ [r.toRow sid] }
        r.ideas 0 with
    | none => none
    | some st1 =>
      match insertTaskRows fail st1 r.tasks 0 with
      | none => none
      | some st2 => insertNoteRows fail st2 r.structured_notes 0

/-- Modelled from the spec: `saveAnalysis(sessionId, r)` runs its
constituent writes as a single transactional unit — the staged store is
committed only when every write succeeds; on any failure the transaction
rolls back and the observable store is exactly the pre-call store. The
returned flag records success. The Rust implementation (plan §3.2,
`AnalysisRepository`) is absent. -/
def saveAnalysisWith (fail : WriteStep → Bool) (st : Store) (sid : Nat)
    (r : AnalysisResult) : Store × Bool :=
  match runSaveWrites fail (purgeAnalysisOfSession st sid) sid r with
  | some st' => (st', true)
  | none => (st, false)

/-- `saveAnalysis` with no injected failure. -/
def saveAnalysis (st : Store) (sid : Nat) (r : AnalysisResult) : Store :=
  (saveAnalysisWith (fun _ => false) st sid r).1

/-- Number of store rows belonging to the `AnalysisResult` with id
`aid`: its `analysis_results` row and its dependent `ideas`, `tasks` and
`structured_notes` rows. -/
def rowsForAnalysis (st : Store) (aid : Nat) : Nat :=
  (st.analysis_results.filter (fun a => a.id == aid)).length
  + (st.ideas.filter (fun i => i.analysis_id == aid)).length
  + (st.tasks.filter (fun t => t.analysis_id == aid)).length
  + (st.structured_notes.filter (fun n => n.analysis_id == aid)).length

/-- `aid` is unused in the store: no analysis row carries it and no child
row references it. -/
def FreshAnalysisId (st : Store) (aid : Nat) : Prop :=
  rowsForAnalysis st aid = 0

/-- Modelled from the spec: `deleteSession(id)` removes the session row
and, per the schema's `ON DELETE CASCADE`, its `audio_files`,
`transcripts` and `analysis_results` rows, and the `ideas`, `tasks` and
`structured_notes` rows of those analyses. -/
def deleteSession (st : Store) (sid : Nat) : Store :=
  let aids := (st.analysis_results.filter (fun a => a.session_id == sid)).map
    (fun a => a.id)
  { sessions := st.sessions.filter (fun s => s.id != sid),
    audio_files := st.audio_files.filter (fun f => f.session_id != sid),
    transcripts := st.transcripts.filter (fun t => t.session_id != sid),
    analysis_results := st.analysis_results.filter (fun a => a.session_id != sid),
    ideas := st.ideas.filter (fun i => !(aids.contains i.analysis_id)),
    tasks := st.tasks.filter (fun t => !(aids.contains t.analysis_id)),
    structured_notes := st.structured_notes.filter (fun n => !(aids.contains n.analysis_id)) }

/-- All rows of the store scoped to one session: its session row, its
direct dependents, and the child rows of its analyses. -/
structure SessionGraph where
  sessions : List SessionRow
  audio_files : List AudioFileRow
  transcripts : List TranscriptRow
  analysis_results : List AnalysisRow
  ideas : List IdeaRow
  tasks : List TaskRow
  structured_notes : List NoteRow
deriving DecidableEq, Repr

/-- Observe the records of session `sid` in the store. -/
def sessionGraph (st : Store) (sid : Nat) : SessionGraph :=
  let aids := (st.analysis_results.filter (fun a => a.session_id == sid)).map
    (fun a => a.id)
  { sessions := st.sessions.filter (fun s => s.id == sid),
    audio_files := st.audio_files.filter (fun f => f.session_id == sid),
    transcripts := st.transcripts.filter (fun t => t.session_id == sid),
    analysis_results := st.analysis_results.filter (fun a => a.session_id == sid),
    ideas := st.ideas.filter (fun i => aids.contains i.analysis_id),
    tasks := st.tasks.filter (fun t => aids.contains t.analysis_id),
    structured_notes := st.structured_notes.filter (fun n => aids.contains n.analysis_id) }

/-- The empty observation. -/
def SessionGraph.empty : SessionGraph :=
  { sessions := [], audio_files := [], transcripts := [],
    analysis_results := [], ideas := [], tasks := [], structured_notes := [] }

/-- The `id UUID PRIMARY KEY` constraint of `analysis_results`: distinct
rows carry distinct ids. -/
def UniqueAnalysisIds (st : Store) : Prop :=
  st.analysis_results.Pairwise (fun a b => a.id ≠ b.id)

/-! ### List helper lemmas for the repository proofs -/

theorem filter_eq_nil_of_false {α : Type} (l : List α) (p : α → Bool)
    (h : ∀ x ∈ l, p x = false) : l.filter p = [] := by
  induction l with
  | nil => rfl
  | cons a t ih =>
    simp [List.filter_cons, h a (by simp),
      ih (fun x hx => h x (by simp [hx]))]

theorem filter_eq_self_of_true {α : Type} (l : List α) (p : α → Bool)
    (h : ∀ x ∈ l, p x = true) : l.filter p = l := by
  induction l with
  | nil => rfl
  | cons a t ih =>
    simp [List.filter_cons, h a (by simp),
      ih (fun x hx => h x (by simp [hx]))]

theorem find?_append_of_none {α : Type} (l1 l2 : List α) (p : α → Bool)
    (h : ∀ x ∈ l1, p x = false) :
    (l1 ++ l2).find? p = l2.find? p := by
  induction l1 with
  | nil => simp
  | cons a t ih =>
    simp [List.find?_cons, h a (by simp),
      ih (fun x hx => h x (by simp [hx]))]

theorem filter_filter_eq_nil {α : Type} (l : List α) (p q : α → Bool)
    (h : ∀ x, q x = true → p x = false) :
    (l.filter q).filter p = [] :=
  filter_eq_nil_of_false _ _ (fun x hx => h x (List.of_mem_filter hx))

theorem filter_filter_eq_of_imp {α : Type} (l : List α) (p q : α → Bool)
    (h : ∀ x, p x = true → q x = true) :
    (l.filter q).filter p = l.filter p := by
  induction l with
  | nil => rfl
  | cons a t ih =>
    by_cases hp : p a = true
    · simp [List.filter_cons, hp, h a hp, ih]
    · have hp' : p a = false := by
        cases hx : p a
        · rfl
        · exact absurd hx hp
      by_cases hq : q a = true
      · simp [List.filter_cons, hp', hq, ih]
      · have hq' : q a = false := by
          cases hx : q a
          · rfl
          · exact absurd hx hq
        simp [List.filter_cons, hp', hq', ih]

/-! ### Behaviour of the saveAnalysis transaction -/

theorem insertIdeaRows_nofail (l : List IdeaRow) :
    ∀ (st : Store) (idx : Nat),
      insertIdeaRows (fun _ => false) st l idx
        = some { st with ideas := st.ideas ++ l } := by
  induction l with
  | nil => intro st idx; simp [insertIdeaRows]
  | cons i rest ih =>
    intro st idx
    simp [insertIdeaRows, ih, List.append_assoc]

theorem insertTaskRows_nofail (l : List TaskRow) :
    ∀ (st : Store) (idx : Nat),
      insertTaskRows (fun _ => false) st l idx
        = some { st with tasks := st.tasks ++ l } := by
  induction l with
  | nil => intro st idx; simp [insertTaskRows]
  | cons t rest ih =>
    intro st idx
    simp [insertTaskRows, ih, List.append_assoc]

theorem insertNoteRows_nofail (l : List NoteRow) :
    ∀ (st : Store) (idx : Nat),
      insertNoteRows (fun _ => false) st l idx
        = some { st with structured_notes := st.structured_notes ++ l } := by
  induction l with
  | nil => intro st idx; simp [insertNoteRows]
  | cons n rest ih =>
    intro st idx
    simp [insertNoteRows, ih, List.append_assoc]

/-- With no injected failure the transaction commits the purge of the
prior analysis followed by all constituent inserts, in order. -/
theorem saveAnalysis_eq (st : Store) (sid : Nat) (r : AnalysisResult) :
    saveAnalysis st sid r =
      { sessions := (purgeAnalysisOfSession st sid).sessions,
        audio_files := (purgeAnalysisOfSession st sid).audio_files,
        transcripts := (purgeAnalysisOfSession st sid).transcripts,
        analysis_results :=
          (purgeAnalysisOfSession st sid).analysis_results ++ [r.toRow sid],
        ideas := (purgeAnalysisOfSession st sid).ideas ++ r.ideas,
        tasks := (purgeAnalysisOfSession st sid).tasks ++ r.tasks,
        structured_notes :=
          (purgeAnalysisOfSession st sid).structured_notes ++ r.structured_notes } := by
  simp [saveAnalysis, saveAnalysisWith, runSaveWrites,
    insertIdeaRows_nofail, insertTaskRows_nofail, insertNoteRows_nofail]

theorem pred_false_of_filter_len_zero {α : Type} (l : List α) (p : α → Bool)
    (h : (l.filter p).length = 0) : ∀ x ∈ l, p x = false := by
  intro x hx
  cases hb : p x
  · rfl
  · exfalso
    have hmem : x ∈ l.filter p := List.mem_filter.mpr ⟨hx, hb⟩
    rw [List.length_eq_zero.mp h] at hmem
    simp at hmem

/-- Unfolding of a fresh analysis id into per-table statements. -/
theorem freshAnalysisId_components (st : Store) (aid : Nat)
    (h : FreshAnalysisId st aid) :
    (∀ a ∈ st.analysis_results, (a.id == aid) = false)
    ∧ (∀ i ∈ st.ideas, (i.analysis_id == aid) = false)
    ∧ (∀ t ∈ st.tasks, (t.analysis_id == aid) = false)
    ∧ (∀ n ∈ st.structured_notes, (n.analysis_id == aid) = false) := by
  unfold FreshAnalysisId rowsForAnalysis at h
  exact ⟨pred_false_of_filter_len_zero _ _ (by omega),
    pred_false_of_filter_len_zero _ _ (by omega),
    pred_false_of_filter_len_zero _ _ (by omega),
    pred_false_of_filter_len_zero _ _ (by omega)⟩

/-! ## Theorems: atomic saveAnalysis (C1) -/

/-- C1: `saveAnalysis` persists the `AnalysisResult` and its children as
one atomic unit: whenever any constituent write fails (the call reports
failure), the observable store after the call is exactly the pre-call
store, and — for an `AnalysisResult` id not already present — zero rows
belonging to that `AnalysisResult` are observable. -/
theorem saveAnalysis_atomic (fail : WriteStep → Bool) (st : Store) (sid : Nat)
    (r : AnalysisResult)
    (hfail : (saveAnalysisWith fail st sid r).2 = false)
    (hfresh : FreshAnalysisId st r.id) :
    (saveAnalysisWith fail st sid r).1 = st
    ∧ rowsForAnalysis (saveAnalysisWith fail st sid r).1 r.id = 0 := by
  cases h : runSaveWrites fail (purgeAnalysisOfSession st sid) sid r with
  | some st' => simp [saveAnalysisWith, h] at hfail
  | none =>
    constructor
    · simp [saveAnalysisWith, h]
    · have h1 : (saveAnalysisWith fail st sid r).1 = st := by
        simp [saveAnalysisWith, h]
      rw [h1]
      exact hfresh

/-- Sample rows for the repository witnesses. -/
def sampleIdea : IdeaRow :=
  { id := 10, analysis_id := 5, content := "an idea", category := none,
    priority := 0, created_at := 3 }

def sampleTask : TaskRow :=
  { id := 11, analysis_id := 5, title := "a task", description := some "details",
    priority := TaskPriority.medium, status := TaskStatus.pending,
    due_date := none, created_at := 3, updated_at := 3 }

def sampleNote : NoteRow :=
  { id := 12, analysis_id := 5, title := "a note", content := "note body",
    note_type := NoteType.meeting, tags := ["t2", "t1"],
    created_at := 3, updated_at := 3 }

def sampleResult : AnalysisResult :=
  { id := 5, session_id := 1, title := some "T", summary := some "S",
    provider := "ollama", model_version := some "llama3",
    created_at := 3, processing_time_ms := some 40,
    ideas := [sampleIdea], tasks := [sampleTask],
    structured_notes := [sampleNote] }

def sampleSessionRow : SessionRow :=
  { id := 1, title := "session one", created_at := 1, updated_at := 2,
    duration_ms := 1000, status := SessionStatus.active, metadata := none }

def sampleStore : Store :=
  { sessions := [sampleSessionRow], audio_files := [], transcripts := [],
    analysis_results := [], ideas := [], tasks := [], structured_notes := [] }

/-- The failure the spec's atomicity test injects: after writing the
Ideas, before writing the Tasks. -/
def failBeforeTasks : WriteStep → Bool :=
  fun s => s == WriteStep.taskRow 0

/-- Witness for C1: against a one-session store, a failure injected after
writing Ideas but before writing Tasks makes `saveAnalysis` report
failure, leave the store untouched, and leave zero rows for the
`AnalysisResult`. -/
theorem saveAnalysis_atomic_witness :
    (saveAnalysisWith failBeforeTasks sampleStore 1 sampleResult).2 = false
    ∧ (saveAnalysisWith failBeforeTasks sampleStore 1 sampleResult).1 = sampleStore
    ∧ rowsForAnalysis (saveAnalysisWith failBeforeTasks sampleStore 1 sampleResult).1 5 = 0 :=
  ⟨by decide,
   (saveAnalysis_atomic failBeforeTasks sampleStore 1 sampleResult (by decide)
      (show rowsForAnalysis sampleStore 5 = 0 by decide)).1,
   (saveAnalysis_atomic failBeforeTasks sampleStore 1 sampleResult (by decide)
      (show rowsForAnalysis sampleStore 5 = 0 by decide)).2⟩

/-! ## Theorems: saveAnalysis / findSession round trip (C6) -/

/-- C6: for every session id and every well-formed `AnalysisResult` `r`
whose id is not already in the store, `saveAnalysis(id, r)` followed by
`findSession(id).analysis` yields `r` back, field-wise, with the order of
the `tags`, `ideas` and `tasks` (and `structured_notes`) collections
preserved. -/
theorem saveAnalysis_findSession_roundTrip (st : Store) (sid : Nat)
    (r : AnalysisResult)
    (hsid : r.session_id = sid)
    (hideas : ∀ i ∈ r.ideas, i.analysis_id = r.id)
    (htasks : ∀ t ∈ r.tasks, t.analysis_id = r.id)
    (hnotes : ∀ n ∈ r.structured_notes, n.analysis_id = r.id)
    (hfresh : FreshAnalysisId st r.id) :
    find_analysis_by_session_id (saveAnalysis st sid r) sid = some r := by
  obtain ⟨hA, hI, hT, hN⟩ := freshAnalysisId_components st r.id hfresh
  rw [saveAnalysis_eq]
  have hfind :
      ((purgeAnalysisOfSession st sid).analysis_results ++ [r.toRow sid]).find?
        (fun a => a.session_id == sid) = some (r.toRow sid) := by
    rw [find?_append_of_none]
    · simp [List.find?, AnalysisResult.toRow]
    · intro a ha
      have ha2 : a ∈ st.analysis_results.filter (fun a => a.session_id != sid) := ha
      have ha' : (a.session_id != sid) = true :=
        List.of_mem_filter (p := fun x : AnalysisRow => x.session_id != sid) ha2
      simpa using ha'
  have hpi : (purgeAnalysisOfSession st sid).ideas.filter
      (fun i => i.analysis_id == r.id) = [] := by
    apply filter_eq_nil_of_false
    intro i hi
    have hi2 : i ∈ st.ideas.filter (fun i =>
        !(((st.analysis_results.filter (fun a => a.session_id == sid)).map
          (fun a => a.id)).contains i.analysis_id)) := hi
    exact hI i (List.mem_of_mem_filter hi2)
  have hpt : (purgeAnalysisOfSession st sid).tasks.filter
      (fun t => t.analysis_id == r.id) = [] := by
    apply filter_eq_nil_of_false
    intro t ht
    have ht2 : t ∈ st.tasks.filter (fun t =>
        !(((st.analysis_results.filter (fun a => a.session_id == sid)).map
          (fun a => a.id)).contains t.analysis_id)) := ht
    exact hT t (List.mem_of_mem_filter ht2)
  have hpn : (purgeAnalysisOfSession st sid).structured_notes.filter
      (fun n => n.analysis_id == r.id) = [] := by
    apply filter_eq_nil_of_false
    intro n hn
    have hn2 : n ∈ st.structured_notes.filter (fun n =>
        !(((st.analysis_results.filter (fun a => a.session_id == sid)).map
          (fun a => a.id)).contains n.analysis_id)) := hn
    exact hN n (List.mem_of_mem_filter hn2)
  have hri : r.ideas.filter (fun i => i.analysis_id == r.id) = r.ideas :=
    filter_eq_self_of_true _ _ (fun i hi => by simp [hideas i hi])
  have hrt : r.tasks.filter (fun t => t.analysis_id == r.id) = r.tasks :=
    filter_eq_self_of_true _ _ (fun t ht => by simp [htasks t ht])
  have hrn : r.structured_notes.filter (fun n => n.analysis_id == r.id)
      = r.structured_notes :=
    filter_eq_self_of_true _ _ (fun n hn => by simp [hnotes n hn])
  simp only [find_analysis_by_session_id, hfind, Option.map_some']
  congr 1
  subst hsid
  simp only [assembleAnalysis, AnalysisResult.toRow, List.filter_append,
    hpi, hpt, hpn, hri, hrt, hrn, List.nil_append]

/-- Witness for C6: saving a concrete `AnalysisResult` with one idea, one
task and one two-tag structured note into a one-session store and reading
it back returns it unchanged. -/
theorem saveAnalysis_findSession_roundTrip_witness :
    find_analysis_by_session_id (saveAnalysis sampleStore 1 sampleResult) 1
      = some sampleResult :=
  saveAnalysis_findSession_roundTrip sampleStore 1 sampleResult rfl
    (by decide) (by decide) (by decide)
    (show rowsForAnalysis sampleStore 5 = 0 by decide)

/-! ## Theorems: deleteSession cascade and frame (C7) -/

theorem beq_false_of_bne_true {a b : Nat} (h : (a != b) = true) :
    (a == b) = false := by
  simpa [bne] using h

theorem bne_true_of_beq_ne {a b c : Nat} (h : (a == b) = true) (hne : b ≠ c) :
    (a != c) = true := by
  have hab : a = b := by simpa using h
  simp [bne, hab, hne]

/-- Analysis ids of two different sessions are disjoint when analysis
ids are unique (`id UUID PRIMARY KEY`). -/
theorem analysisIds_disjoint (st : Store) (sid sid' : Nat)
    (huniq : UniqueAnalysisIds st) (hne : sid' ≠ sid) (x : Nat)
    (h' : x ∈ (st.analysis_results.filter (fun a => a.session_id == sid')).map
      (fun a => a.id)) :
    ¬ x ∈ (st.analysis_results.filter (fun a => a.session_id == sid)).map
      (fun a => a.id) := by
  intro hx
  obtain ⟨a', ha'mem, ha'id⟩ := List.mem_map.mp h'
  obtain ⟨a, hamem, haid⟩ := List.mem_map.mp hx
  have ha's : (a'.session_id == sid') = true :=
    List.of_mem_filter (p := fun y : AnalysisRow => y.session_id == sid') ha'mem
  have has : (a.session_id == sid) = true :=
    List.of_mem_filter (p := fun y : AnalysisRow => y.session_id == sid) hamem
  have hne2 : a ≠ a' := by
    intro he
    subst he
    have h1 : a.session_id = sid := by simpa using has
    have h2 : a.session_id = sid' := by simpa using ha's
    exact hne (h2.symm.trans h1)
  have hsymm : Symmetric (fun a b : AnalysisRow => a.id ≠ b.id) :=
    fun _ _ hh he => hh he.symm
  have hids : a.id ≠ a'.id :=
    List.Pairwise.forall hsymm huniq (List.mem_of_mem_filter hamem)
      (List.mem_of_mem_filter ha'mem) hne2
  exact hids (haid.trans ha'id.symm)

/-- C7: `deleteSession(sid)` removes the session row and every
`audio_files`, `transcripts`, `analysis_results`, `ideas`, `tasks` and
`structured_notes` row scoped to `sid`, and leaves the records of every
other session `sid'` unchanged. -/
theorem deleteSession_cascade_frame (st : Store) (sid sid' : Nat)
    (huniq : UniqueAnalysisIds st) (hne : sid' ≠ sid) :
    sessionGraph (deleteSession st sid) sid = SessionGraph.empty
    ∧ sessionGraph (deleteSession st sid) sid' = sessionGraph st sid' := by
  constructor
  · have hse : (st.sessions.filter (fun s => s.id != sid)).filter
        (fun s => s.id == sid) = [] :=
      filter_filter_eq_nil _ _ _ (fun x hx => beq_false_of_bne_true hx)
    have hau : (st.audio_files.filter (fun f => f.session_id != sid)).filter
        (fun f => f.session_id == sid) = [] :=
      filter_filter_eq_nil _ _ _ (fun x hx => beq_false_of_bne_true hx)
    have htr : (st.transcripts.filter (fun t => t.session_id != sid)).filter
        (fun t => t.session_id == sid) = [] :=
      filter_filter_eq_nil _ _ _ (fun x hx => beq_false_of_bne_true hx)
    have han : (st.analysis_results.filter (fun a => a.session_id != sid)).filter
        (fun a => a.session_id == sid) = [] :=
      filter_filter_eq_nil _ _ _ (fun x hx => beq_false_of_bne_true hx)
    simp [sessionGraph, deleteSession, SessionGraph.empty, hse, hau, htr, han]
  · have hanf : (st.analysis_results.filter (fun a => a.session_id != sid)).filter
        (fun a => a.session_id == sid') = st.analysis_results.filter
        (fun a => a.session_id == sid') :=
      filter_filter_eq_of_imp _ _ _ (fun a ha => bne_true_of_beq_ne ha hne)
    have hsef : (st.sessions.filter (fun s => s.id != sid)).filter
        (fun s => s.id == sid') = st.sessions.filter (fun s => s.id == sid') :=
      filter_filter_eq_of_imp _ _ _ (fun s hs => bne_true_of_beq_ne hs hne)
    have hauf : (st.audio_files.filter (fun f => f.session_id != sid)).filter
        (fun f => f.session_id == sid') = st.audio_files.filter
        (fun f => f.session_id == sid') :=
      filter_filter_eq_of_imp _ _ _ (fun f hf => bne_true_of_beq_ne hf hne)
    have htrf : (st.transcripts.filter (fun t => t.session_id != sid)).filter
        (fun t => t.session_id == sid') = st.transcripts.filter
        (fun t => t.session_id == sid') :=
      filter_filter_eq_of_imp _ _ _ (fun t ht => bne_true_of_beq_ne ht hne)
    have hdisj : ∀ y : Nat,
        ((st.analysis_results.filter (fun a => a.session_id == sid')).map
          (fun a => a.id)).contains y = true →
        (!(((st.analysis_results.filter (fun a => a.session_id == sid)).map
          (fun a => a.id)).contains y)) = true := by
      intro y hy
      have hy' : y ∈ (st.analysis_results.filter
          (fun a => a.session_id == sid')).map (fun a => a.id) := by
        simpa using hy
      have hno := analysisIds_disjoint st sid sid' huniq hne y hy'
      simpa using hno
    have hidf : (st.ideas.filter (fun i =>
        !(((st.analysis_results.filter (fun a => a.session_id == sid)).map
          (fun a => a.id)).contains i.analysis_id))).filter (fun i =>
        ((st.analysis_results.filter (fun a => a.session_id == sid')).map
          (fun a => a.id)).contains i.analysis_id)
        = st.ideas.filter (fun i =>
        ((st.analysis_results.filter (fun a => a.session_id == sid')).map
          (fun a => a.id)).contains i.analysis_id) :=
      filter_filter_eq_of_imp _ _ _ (fun i hi => hdisj i.analysis_id hi)
    have htaf : (st.tasks.filter (fun t =>
        !(((st.analysis_results.filter (fun a => a.session_id == sid)).map
          (fun a => a.id)).contains t.analysis_id))).filter (fun t =>
        ((st.analysis_results.filter (fun a => a.session_id == sid')).map
          (fun a => a.id)).contains t.analysis_id)
        = st.tasks.filter (fun t =>
        ((st.analysis_results.filter (fun a => a.session_id == sid')).map
          (fun a => a.id)).contains t.analysis_id) :=
      filter_filter_eq_of_imp _ _ _ (fun t ht => hdisj t.analysis_id ht)
    have hnof : (st.structured_notes.filter (fun n =>
        !(((st.analysis_results.filter (fun a => a.session_id == sid)).map
          (fun a => a.id)).contains n.analysis_id))).filter (fun n =>
        ((st.analysis_results.filter (fun a => a.session_id == sid')).map
          (fun a => a.id)).contains n.analysis_id)
        = st.structured_notes.filter (fun n =>
        ((st.analysis_results.filter (fun a => a.session_id == sid')).map
          (fun a => a.id)).contains n.analysis_id) :=
      filter_filter_eq_of_imp _ _ _ (fun n hn => hdisj n.analysis_id hn)
    simp only [sessionGraph, deleteSession, hanf, hsef, hauf, htrf, hidf, htaf, hnof]

/-- Second session and analysis rows for the C7 witness. -/
def otherSessionRow : SessionRow :=
  { id := 2, title := "session two", created_at := 5, updated_at := 6,
    duration_ms := 2000, status := SessionStatus.active, metadata := none }

def sampleAnalysisRow : AnalysisRow :=
  { id := 5, session_id := 1, title := some "T", summary := some "S",
    provider := "ollama", model_version := none, created_at := 3,
    processing_time_ms := none }

def otherAnalysisRow : AnalysisRow :=
  { id := 6, session_id := 2, title := some "U", summary := some "V",
    provider := "ollama", model_version := none, created_at := 7,
    processing_time_ms := none }

def otherIdea : IdeaRow :=
  { id := 20, analysis_id := 6, content := "other idea", category := none,
    priority := 0, created_at := 7 }

/-- A store holding two sessions, each with an analysis; session 1 also
owns a task and a structured note. -/
def twoSessionStore : Store :=
  { sessions := [sampleSessionRow, otherSessionRow],
    audio_files := [],
    transcripts := [],
    analysis_results := [sampleAnalysisRow, otherAnalysisRow],
    ideas := [sampleIdea, otherIdea],
    tasks := [sampleTask],
    structured_notes := [sampleNote] }

/-- Witness for C7: deleting session 1 from a two-session store empties
session 1's records and leaves session 2's records unchanged. -/
theorem deleteSession_cascade_frame_witness :
    UniqueAnalysisIds twoSessionStore
    ∧ sessionGraph (deleteSession twoSessionStore 1) 1 = SessionGraph.empty
    ∧ sessionGraph (deleteSession twoSessionStore 1) 2
        = sessionGraph twoSessionStore 2 := by
  have huniq : UniqueAnalysisIds twoSessionStore := by
    unfold UniqueAnalysisIds twoSessionStore
    simp [sampleAnalysisRow, otherAnalysisRow]
  exact ⟨huniq,
    (deleteSession_cascade_frame twoSessionStore 1 2 huniq (by decide)).1,
    (deleteSession_cascade_frame twoSessionStore 1 2 huniq (by decide)).2⟩

/-! ## Web wire types and API client

`src/web/src/services/api.ts` and `src/web/src/types/index.ts` define the
JSON wire shape of `AnalysisResult` exposed at the external interface.
Field sets are embedded as `(name, required)` lists in source order.
-/

/-- Fields of the wire `AnalysisResult` interface
(`src/web/src/services/api.ts`). -/
def wireAnalysisResultFields : List (String × Bool) :=
  [("title", true), ("ideas", true), ("tasks", true),
   ("structured_notes", true), ("summary", true)]

/-- Fields of the wire `Task` interface (`description?` and `due_date?`
are optional). -/
def wireTaskFields : List (String × Bool) :=
  [("title", true), ("description", false), ("priority", true),
   ("due_date", false)]

/-- Fields of the wire `StructuredNote` interface. -/
def wireStructuredNoteFields : List (String × Bool) :=
  [("title", true), ("content", true), ("tags", true), ("note_type", true),
   ("updated_at", true), ("created_at", true)]

/-- The Analysis Orchestrator's required schema, following the spec's
words: top level `title, summary, ideas[], tasks[], structured_notes[]`. -/
def schemaAnalysisResultFields : List (String × Bool) :=
  [("title", true), ("summary", true), ("ideas", true), ("tasks", true),
   ("structured_notes", true)]

/-- Schema task entries: `{title, description?, priority}`. -/
def schemaTaskFields : List (String × Bool) :=
  [("title", true), ("description", false), ("priority", true)]

/-- Schema structured-note entries: `{title, content, tags[], note_type}`. -/
def schemaStructuredNoteFields : List (String × Bool) :=
  [("title", true), ("content", true), ("tags", true), ("note_type", true)]

/-- Two field lists describe the same field set. -/
def sameFieldSet (a b : List (String × Bool)) : Bool :=
  a.all (fun f => b.contains f) && b.all (fun f => a.contains f)

/-! ## Theorems: AnalysisResult wire shape (C8) -/

/-- C8 counterexample: the wire `structured_notes` entries do not consist
of exactly the orchestrator schema's fields `title, content, tags,
note_type` — the `StructuredNote` interface additionally declares a
required `updated_at` (and `created_at`) field. -/
theorem wire_structured_note_extra_fields :
    sameFieldSet wireStructuredNoteFields schemaStructuredNoteFields = false
    ∧ wireStructuredNoteFields.contains ("updated_at", true) = true
    ∧ schemaStructuredNoteFields.contains ("updated_at", true) = false := by
  decide

/-- C8 amended: the wire shape matches the orchestrator schema at top
level (same field set) and in tasks up to one additional optional
`due_date` field, while `structured_notes` entries additionally carry
required `updated_at` and `created_at` fields. -/
theorem wire_shape_vs_schema :
    sameFieldSet wireAnalysisResultFields schemaAnalysisResultFields = true
    ∧ wireTaskFields = schemaTaskFields ++ [("due_date", false)]
    ∧ wireStructuredNoteFields
        = schemaStructuredNoteFields ++ [("updated_at", true), ("created_at", true)] := by
  decide

/-! ## startSession / startRecording (C9) -/

/-- `startRecording` from `src/web/src/services/api.ts`: it posts
`/record/start` — typed `ApiResponse<void>`, so the response carries no
session id and is discarded — and returns the client-side string
`session_${Date.now()}`. `now` models the client clock. -/
def startRecording (resp : Option Unit) (now : Nat) : String :=
  match resp with
  | _ => "session_" ++ Nat.repr now

/-- Modelled from the spec: the backend `/record/start` handler (absent
from the snapshot) creates the session under its own `SessionId`; the
backend's session list afterwards holds that id. -/
def backendSessionsAfterStart (pre : List String) (backendId : String) :
    List String :=
  pre ++ [backendId]

/-- Modelled from the spec: `getSession(id)` retrieves the session with
the given id. -/
def getSession (sessions : List String) (id : String) : Option String :=
  sessions.find? (fun s => s == id)

/-- C9 (code bug): `startRecording` does not return the identifier of the
session the backend created — it returns the client-fabricated
`session_${Date.now()}` independently of the backend response, so at
backend session id `"b7a3f2e1"` and client clock `1700000000000` the
returned id cannot be retrieved via `getSession`. -/
theorem startRecording_fabricated_id :
    startRecording (some ()) 1700000000000 = "session_1700000000000"
    ∧ (∀ (r1 r2 : Option Unit) (n : Nat), startRecording r1 n = startRecording r2 n)
    ∧ getSession (backendSessionsAfterStart [] "b7a3f2e1") "session_1700000000000"
        = none := by
  refine ⟨rfl, fun r1 r2 n => ?_, by decide⟩
  cases r1 <;> cases r2 <;> rfl

namespace Web

/-! ## Web front-end types and `voiceSessionToNote`

Types from `src/web/src/types/index.ts`; the transformation from
`src/web/src/utils/dataTransform.ts`.
-/

inductive Priority where
  | low
  | medium
  | high
  | urgent
deriving DecidableEq, Repr

inductive NoteType where
  | meeting
  | brainstorm
  | decision
  | action
  | reference
deriving DecidableEq, Repr

/-- The wire `StructuredNote` (`src/web/src/types/index.ts`). -/
structure StructuredNote where
  title : String
  content : String
  tags : List String
  note_type : NoteType
  updated_at : String
  created_at : String
deriving DecidableEq, Repr

/-- The wire `Task`. -/
structure Task where
  title : String
  description : Option String
  priority : Priority
  due_date : Option String
deriving DecidableEq, Repr

/-- The wire `AnalysisResult`. -/
structure AnalysisResult where
  title : String
  ideas : List String
  tasks : List Task
  structured_notes : List StructuredNote
  summary : String
deriving DecidableEq, Repr

/-- The wire `VoiceSession`. -/
structure VoiceSession where
  id : String
  timestamp : String
  audio_file_path : String
  transcript : Option String
  analysis : Option AnalysisResult
  title : String
  duration_ms : Nat
  audio_url : Option String
deriving DecidableEq, Repr

/-- JavaScript `x || y` over an optional string: `undefined` and the
empty string are falsy. -/
def jsOr (x : Option String) (y : String) : String :=
  match x with
  | some s => if s == "" then y else s
  | none => y

/-- The `content` field of `voiceSessionToNote`
(`src/web/src/utils/dataTransform.ts`):
`session.analysis?.summary || session.transcript || "No content available"`. -/
def noteContent (s : VoiceSession) : String :=
  jsOr (s.analysis.map (fun a => a.summary))
    (jsOr s.transcript "No content available")

/-- `getTag` from `voiceSessionToNote`: `"Ideas"` when there is no
analysis or its `structured_notes` is empty, else the `switch` over the
first structured note's `note_type`. -/
def getTag (analysis : Option AnalysisResult) : String :=
  match analysis with
  | none => "Ideas"
  | some a =>
    match a.structured_notes with
    | [] => "Ideas"
    | n :: _ =>
      match n.note_type with
      | NoteType.meeting => "Meeting"
      | NoteType.brainstorm => "Ideas"
      | NoteType.decision => "Decision"
      | NoteType.action => "Tasks"
      | NoteType.reference => "Reference"

/-- The `tag` field of `voiceSessionToNote`. -/
def noteTag (s : VoiceSession) : String :=
  getTag s.analysis

/-- The note-type-to-tag table stated by the claim (the `switch` of
`getTag`), as its own definition. -/
def tagOfNoteType : NoteType → String
  | NoteType.meeting => "Meeting"
  | NoteType.brainstorm => "Ideas"
  | NoteType.decision => "Decision"
  | NoteType.action => "Tasks"
  | NoteType.reference => "Reference"

/-! ## Theorems: voiceSessionToNote content and tag (C10) -/

/-- C10: for every `VoiceSession`, the note's content is the analysis
summary when present and non-empty, else the transcript when present and
non-empty, else the literal `"No content available"`; and the note's tag
is `"Ideas"` when there is no analysis or no structured notes, else is
determined solely by the `note_type` of the first structured note via the
fixed table. -/
theorem voiceSessionToNote_content_tag (s : VoiceSession) :
    (∀ a, s.analysis = some a → a.summary ≠ "" → noteContent s = a.summary)
    ∧ (∀ t, (s.analysis = none ∨ ∃ a, s.analysis = some a ∧ a.summary = "") →
        s.transcript = some t → t ≠ "" → noteContent s = t)
    ∧ ((s.analysis = none ∨ ∃ a, s.analysis = some a ∧ a.summary = "") →
        (s.transcript = none ∨ s.transcript = some "") →
        noteContent s = "No content available")
    ∧ (s.analysis = none → noteTag s = "Ideas")
    ∧ (∀ a, s.analysis = some a → a.structured_notes = [] → noteTag s = "Ideas")
    ∧ (∀ a n rest, s.analysis = some a → a.structured_notes = n :: rest →
        noteTag s = tagOfNoteType n.note_type) := by
  refine ⟨?_, ?_, ?_, ?_, ?_, ?_⟩
  · intro a ha hne
    have hb : (a.summary == "") = false := by simpa using hne
    simp [noteContent, jsOr, ha, hb]
  · intro t hcase ht hne
    have hb : (t == "") = false := by simpa using hne
    rcases hcase with h | ⟨a, ha, hs⟩
    · simp [noteContent, jsOr, h, ht, hb]
    · simp [noteContent, jsOr, ha, hs, ht, hb]
  · intro hcase htr
    rcases hcase with h | ⟨a, ha, hs⟩ <;> rcases htr with h2 | h2 <;>
      simp [noteContent, jsOr, h2, *]
  · intro h
    simp [noteTag, getTag, h]
  · intro a ha hn
    simp [noteTag, getTag, ha, hn]
  · intro a n rest ha hn
    simp only [noteTag, getTag, ha, hn]
    cases hnt : n.note_type <;> simp [tagOfNoteType]

/-- Sample session for the C10 witness: analysis with a non-empty summary
and a first structured note of type `Meeting`. -/
def sampleWebNote : StructuredNote :=
  { title := "n", content := "c", tags := ["x"],
    note_type := NoteType.meeting, updated_at := "u", created_at := "cr" }

def sampleWebAnalysis : AnalysisResult :=
  { title := "T", ideas := ["i"], tasks := [],
    structured_notes := [sampleWebNote], summary := "the summary" }

def sampleWebSession : VoiceSession :=
  { id := "s1", timestamp := "2024-01-01T00:00:00Z",
    audio_file_path := "/audio/s1.wav", transcript := some "the transcript",
    analysis := some sampleWebAnalysis, title := "t", duration_ms := 1000,
    audio_url := none }

/-- Witness for C10: the sample session's note content is its analysis
summary and its tag is `"Meeting"`. -/
theorem voiceSessionToNote_content_tag_witness :
    noteContent sampleWebSession = "the summary"
    ∧ noteTag sampleWebSession = "Meeting" :=
  ⟨(voiceSessionToNote_content_tag sampleWebSession).1 sampleWebAnalysis rfl
      (by decide),
   (voiceSessionToNote_content_tag sampleWebSession).2.2.2.2.2 sampleWebAnalysis
      sampleWebNote [] rfl rfl⟩

end Web

end VoiceRecorder
